import Mathlib

/-!
Verification of the Question Delivery Scheduler of `dsa_notifier.py`.

The program is a daily notifier: it loads practice questions from a CSV
file, selects today's batch by a date-offset formula, formats a Slack
message, sends it, and — only when the send succeeds — marks the batch
as pushed and rewrites the file.

Shallow embedding conventions:
* a CSV row is a `RawRecord` (its `Pushed` cell may be absent);
  `ensure_pushed_column` turns it into a `Record` with `pushed : Bool`
  defaulting to `false`, as the Python function of the same name does;
* the outcome of `pd.read_csv` is an `Except LoadError (List RawRecord)`;
  `load_questions` converts any failure into the empty sequence, exactly
  as the Python `try/except` does;
* `datetime.now().date() - START_DATE.date()` is the integer parameter
  `delta` (days); `QUESTIONS_PER_DAY` is the parameter `qpd`;
* the Slack call is an oracle: the boolean `sendOk` is the value
  `send_slack_message` returns for the run;
* `job` returns a `JobResult`: the list of messages handed to
  `send_slack_message` in order, and `saved = some df` exactly when
  `save_questions` is called with `df` (`none` means the store file is
  not rewritten).
-/

namespace DSANotifier

/-- A question row after the `Pushed` column is guaranteed to exist:
columns `Question, Topic, Category, Pushed` of the CSV file. -/
structure Record where
  question : String
  topic : String
  category : String
  pushed : Bool
  deriving Repr, DecidableEq

/-- A raw CSV row: the `Pushed` cell may be missing. -/
structure RawRecord where
  question : String
  topic : String
  category : String
  pushedCell : Option Bool
  deriving Repr, DecidableEq

/-- `ensure_pushed_column`: add the `Pushed` column, defaulting to `False`,
when it is absent (per row view of the DataFrame operation). -/
def ensure_pushed_column (r : RawRecord) : Record :=
  { question := r.question, topic := r.topic, category := r.category,
    pushed := r.pushedCell.getD false }

/-- Failure modes of `pd.read_csv`: `FileNotFoundError` or any other
exception; both branches of `load_questions` return an empty DataFrame. -/
inductive LoadError where
  | fileNotFound
  | otherError
  deriving Repr, DecidableEq

/-- `load_questions`: read the CSV and ensure the `Pushed` column exists;
on any failure return the empty sequence (the empty DataFrame). -/
def load_questions (res : Except LoadError (List RawRecord)) : List Record :=
  match res with
  | .error _ => []
  | .ok rows => rows.map ensure_pushed_column

/-- ASCII apostrophe, used inside the message literals. -/
def apos : String := String.singleton (Char.ofNat 39)

/-- The fixed completion message returned by `format_questions` on an
empty batch. -/
def completionMessage : String :=
  "🎉 *Congratulations!* You" ++ apos ++
    "ve completed all the practice questions. Keep up the great work! 🎉"

/-- The header line of a non-empty questions message. -/
def messageHeader : String := "*Today" ++ apos ++ "s DSA Practice Questions:* 📚\n"

/-- The fixed error notification sent when the DataFrame is empty. -/
def errorMessage : String := "❗ *Error:* Questions data not found or failed to load."

/-- The notice sent by `job` when `get_today_questions` is empty. -/
def noQuestionsMessage : String := "🔔 *DSA Notifier:* No questions to send today."

/-- `get_today_questions`: the date-offset selection.
`delta` is `(today - start_date).days`; rows keep their original
DataFrame index (`df.iloc[start:end]` preserves the RangeIndex),
modelled by `List.enum`. -/
def get_today_questions (df : List Record) (delta : Int) (qpd : Nat) :
    List (Nat × Record) :=
  if delta < 0 then []
  else
    let start_idx := delta.toNat * qpd
    if start_idx ≥ df.length then []
    else ((df.enum.drop start_idx).take qpd)

/-- `question_number` as computed inside the loop of `format_questions`:
`(day_number - 1) * QUESTIONS_PER_DAY + (idx % QUESTIONS_PER_DAY) + 1`
with `day_number = delta + 1` and `idx` the row's DataFrame index. -/
def question_number (delta : Int) (qpd : Nat) (idx : Nat) : Int :=
  ((delta + 1) - 1) * qpd + (idx % qpd : Nat) + 1

/-- One iteration of the formatting loop: the text appended for row
`(idx, record)`. -/
def questionEntry (delta : Int) (qpd : Nat) (p : Nat × Record) : String :=
  "\n• *Question " ++ toString (question_number delta qpd p.1) ++ ":* " ++
    p.2.question ++ "\n  _Topic:_ " ++ p.2.topic ++ " | _Category:_ " ++
    p.2.category ++ "\n"

/-- `format_questions`: the completion message on an empty batch,
otherwise the header followed by one entry per row, accumulated exactly
as the Python `for` loop concatenates onto `message`. -/
def format_questions (rows : List (Nat × Record)) (delta : Int) (qpd : Nat) :
    String :=
  if rows.isEmpty then completionMessage
  else rows.foldl (fun m p => m ++ questionEntry delta qpd p) messageHeader

/-- `df.loc[today_indices, 'Pushed'] = True`: set `pushed` on the rows
whose DataFrame index is in `idxs`, leaving every other row unchanged. -/
def markPushed (df : List Record) (idxs : List Nat) : List Record :=
  df.enum.map (fun p => if p.1 ∈ idxs then { p.2 with pushed := true } else p.2)

/-- Observable outcome of one `job()` run: the messages handed to
`send_slack_message`, in order, and the sequence written by
`save_questions` when a write happens. -/
structure JobResult where
  sent : List String
  saved : Option (List Record)
  deriving Repr, DecidableEq

/-- `job()` with the DataFrame already loaded: select today's questions,
short-circuit on an empty DataFrame, an empty batch, or an
already-pushed batch, otherwise format, send, and persist only when the
send succeeded. -/
def job (df : List Record) (delta : Int) (qpd : Nat) (sendOk : Bool) :
    JobResult :=
  if df.isEmpty then { sent := [errorMessage], saved := none }
  else
    let today := get_today_questions df delta qpd
    if today.isEmpty then { sent := [noQuestionsMessage], saved := none }
    else if today.all (fun p => p.2.pushed) then { sent := [], saved := none }
    else
      let message := format_questions today delta qpd
      if sendOk then
        { sent := [message], saved := some (markPushed df (today.map Prod.fst)) }
      else
        { sent := [message], saved := none }

/-- One full run: `load_questions` then `job`. -/
def runOnce (res : Except LoadError (List RawRecord)) (delta : Int) (qpd : Nat)
    (sendOk : Bool) : JobResult :=
  job (load_questions res) delta qpd sendOk

/-- The store contents after a run: the saved sequence when a write
happened, the untouched previous contents otherwise. -/
def storeAfter (df : List Record) (r : JobResult) : List Record :=
  r.saved.getD df

/-- Right-fold concatenation of a list of message pieces. -/
def concatAll (l : List String) : String := l.foldr (fun s acc => s ++ acc) ""

/-- The fields of a batch row that `format_questions` reads: the
DataFrame index and the `Question`, `Topic`, `Category` columns (the
`Pushed` flag is not read). -/
def visibleFields (p : Nat × Record) : Nat × String × String × String :=
  (p.1, p.2.question, p.2.topic, p.2.category)

/-- `questionEntry` expressed on the fields it reads. -/
def entryOfFields (delta : Int) (qpd : Nat) (v : Nat × String × String × String) :
    String :=
  "\n• *Question " ++ toString (question_number delta qpd v.1) ++ ":* " ++
    v.2.1 ++ "\n  _Topic:_ " ++ v.2.2.1 ++ " | _Category:_ " ++
    v.2.2.2 ++ "\n"

/-- A sample not-yet-delivered record. -/
def rA : Record :=
  { question := "Two Sum", topic := "Arrays", category := "Easy", pushed := false }

/-- A sample already-delivered record. -/
def rB : Record :=
  { question := "Binary Search", topic := "Searching", category := "Medium",
    pushed := true }

/-- The record `rA` with its delivered flag flipped to `true`. -/
def rAPushed : Record :=
  { question := "Two Sum", topic := "Arrays", category := "Easy", pushed := true }

/-- A store with one undelivered question. -/
def dfUnpushed : List Record := [rA]

/-- A store whose single question is already delivered. -/
def dfPushed : List Record := [rB]

/-- A two-question store: first delivered, second not. -/
def dfTwo : List Record := [rB, rA]

end DSANotifier

namespace DSANotifier

lemma get_today_neg (df : List Record) (delta : Int) (qpd : Nat)
    (h : delta < 0) : get_today_questions df delta qpd = [] := by
  simp [get_today_questions, h]

lemma get_today_exhausted (df : List Record) (delta : Int) (qpd : Nat)
    (h0 : 0 ≤ delta) (h : df.length ≤ delta.toNat * qpd) :
    get_today_questions df delta qpd = [] := by
  simp [get_today_questions, not_lt.mpr h0, h]

lemma get_today_eq_slice (df : List Record) (delta : Int) (qpd : Nat)
    (h0 : 0 ≤ delta) (hs : delta.toNat * qpd < df.length) :
    get_today_questions df delta qpd =
      (df.enum.drop (delta.toNat * qpd)).take qpd := by
  simp [get_today_questions, not_lt.mpr h0, not_le.mpr hs]

lemma get_today_getElem? (df : List Record) (delta : Int) (qpd : Nat)
    (h0 : 0 ≤ delta) (hs : delta.toNat * qpd < df.length) (i : Nat) :
    (get_today_questions df delta qpd)[i]? =
      if i < qpd then
        (df[delta.toNat * qpd + i]?).map (fun r => (delta.toNat * qpd + i, r))
      else none := by
  rw [get_today_eq_slice df delta qpd h0 hs, List.getElem?_take]
  split
  · rw [List.getElem?_drop, List.getElem?_enum]
  · rfl

lemma get_today_length (df : List Record) (delta : Int) (qpd : Nat)
    (h0 : 0 ≤ delta) (hs : delta.toNat * qpd < df.length) :
    (get_today_questions df delta qpd).length =
      min qpd (df.length - delta.toNat * qpd) := by
  rw [get_today_eq_slice df delta qpd h0 hs]
  simp [List.length_take, List.length_drop, List.enum_length]

lemma get_today_mem (df : List Record) (delta : Int) (qpd : Nat)
    {p : Nat × Record} (hp : p ∈ get_today_questions df delta qpd) :
    df[p.1]? = some p.2 := by
  by_cases h0 : delta < 0
  · rw [get_today_neg df delta qpd h0] at hp
    cases hp
  · push_neg at h0
    by_cases hs : df.length ≤ delta.toNat * qpd
    · rw [get_today_exhausted df delta qpd h0 hs] at hp
      cases hp
    · push_neg at hs
      rw [get_today_eq_slice df delta qpd h0 hs] at hp
      have h1 : p ∈ df.enum :=
        List.drop_subset _ _ (List.take_subset _ _ hp)
      exact List.mem_enum_iff_getElem?.mp h1

lemma get_today_snd_mem (df : List Record) (delta : Int) (qpd : Nat)
    {p : Nat × Record} (hp : p ∈ get_today_questions df delta qpd) :
    p.2 ∈ df :=
  List.getElem?_mem (get_today_mem df delta qpd hp)

lemma markPushed_length (df : List Record) (idxs : List Nat) :
    (markPushed df idxs).length = df.length := by
  simp [markPushed]

lemma markPushed_getElem? (df : List Record) (idxs : List Nat) (i : Nat) :
    (markPushed df idxs)[i]? =
      (df[i]?).map (fun r => if i ∈ idxs then { r with pushed := true } else r) := by
  rw [markPushed, List.getElem?_map, List.getElem?_enum]
  cases df[i]? <;> simp

lemma concatAll_cons (s : String) (l : List String) :
    concatAll (s :: l) = s ++ concatAll l := rfl

lemma foldl_append_concatAll {α : Type} (f : α → String) :
    ∀ (l : List α) (init : String),
      l.foldl (fun m p => m ++ f p) init = init ++ concatAll (l.map f)
  | [], init => by simp [concatAll]
  | a :: l, init => by
    rw [List.foldl_cons, foldl_append_concatAll f l (init ++ f a), List.map_cons,
      concatAll_cons, String.append_assoc]

lemma format_questions_eq_concat (rows : List (Nat × Record)) (delta : Int)
    (qpd : Nat) (h : rows.isEmpty = false) :
    format_questions rows delta qpd =
      messageHeader ++ concatAll (rows.map (questionEntry delta qpd)) := by
  rw [format_questions, if_neg (by simp [h])]
  exact foldl_append_concatAll _ rows messageHeader

lemma questionEntry_eq_fields (delta : Int) (qpd : Nat) (p : Nat × Record) :
    questionEntry delta qpd p = entryOfFields delta qpd (visibleFields p) := rfl

lemma job_saved_cases (df : List Record) (delta : Int) (qpd : Nat) (sendOk : Bool) :
    (job df delta qpd sendOk).saved = none ∨
    (sendOk = true ∧
      (job df delta qpd sendOk).saved =
        some (markPushed df ((get_today_questions df delta qpd).map Prod.fst))) := by
  simp only [job]
  split
  · exact .inl rfl
  · split
    · exact .inl rfl
    · split
      · exact .inl rfl
      · split
        · rename_i hok
          exact .inr ⟨hok, rfl⟩
        · exact .inl rfl

lemma get_today_index_at (df : List Record) (delta : Int) (qpd : Nat)
    (h0 : 0 ≤ delta) (i : Nat)
    (hi : i < (get_today_questions df delta qpd).length) :
    i < qpd ∧
    ((get_today_questions df delta qpd).get ⟨i, hi⟩).1 = delta.toNat * qpd + i := by
  have hs : delta.toNat * qpd < df.length := by
    by_contra hc
    push_neg at hc
    rw [get_today_exhausted df delta qpd h0 hc] at hi
    simp at hi
  have hiq : i < qpd := by
    have hlen := get_today_length df delta qpd h0 hs
    have := hi
    rw [hlen] at this
    exact lt_of_lt_of_le this (min_le_left _ _)
  have hsome : (get_today_questions df delta qpd)[i]? =
      some ((get_today_questions df delta qpd).get ⟨i, hi⟩) :=
    List.getElem?_eq_getElem hi
  have hgo := get_today_getElem? df delta qpd h0 hs i
  rw [if_pos hiq, hsome] at hgo
  cases hdf : df[delta.toNat * qpd + i]? with
  | none =>
    rw [hdf] at hgo
    cases hgo
  | some r =>
    rw [hdf] at hgo
    refine ⟨hiq, ?_⟩
    have := Option.some.inj hgo
    rw [this]

end DSANotifier

namespace DSANotifier

/-- C7: the number printed for each question — `question_number`, used by
`questionEntry` inside `format_questions` — equals
`dayOffset * batchSize + positionWithinBatch + 1` for the rows selected
by the date-offset policy. The first conjunct records that the row at
batch position `i` carries original index `dayOffset * batchSize + i`. -/
theorem question_number_global_formula (df : List Record) (delta : Int) (qpd : Nat)
    (h0 : 0 ≤ delta) (i : Nat)
    (hi : i < (get_today_questions df delta qpd).length) :
    ((get_today_questions df delta qpd).get ⟨i, hi⟩).1 = delta.toNat * qpd + i ∧
    question_number delta qpd (((get_today_questions df delta qpd).get ⟨i, hi⟩).1)
      = delta * qpd + i + 1 := by
  obtain ⟨hiq, hidx⟩ := get_today_index_at df delta qpd h0 i hi
  refine ⟨hidx, ?_⟩
  rw [hidx, question_number]
  have hmod : (delta.toNat * qpd + i) % qpd = i := by
    rw [Nat.mul_comm, Nat.mul_add_mod, Nat.mod_eq_of_lt hiq]
  rw [hmod]
  ring

/-- Witness for C7: at offset 1, batch size 1, the second question of the
store is shown as question 2. -/
theorem question_number_global_formula_witness :
    (0 : Int) ≤ 1 ∧ (1 : Nat) < (get_today_questions dfTwo 1 1).length + 1 ∧
    question_number 1 1 (((get_today_questions dfTwo 1 1).get
        ⟨0, by decide⟩)).1 = 1 * 1 + 0 + 1 := by
  refine ⟨by decide, by decide, ?_⟩
  exact (question_number_global_formula dfTwo 1 1 (by decide) 0 (by decide)).2

end DSANotifier

namespace DSANotifier

/-- C2: under the date-offset policy, `get_today_questions` returns the
empty batch when the day offset is negative, the empty batch when the
start index `dayOffset * batchSize` reaches or exceeds the sequence
length, and otherwise exactly the slice of rows at positions
`[dayOffset*batchSize, dayOffset*batchSize + batchSize)`, each tagged
with its original index. -/
theorem selectBatch_date_offset_slice (df : List Record) (delta : Int) (qpd : Nat) :
    (delta < 0 → get_today_questions df delta qpd = []) ∧
    (0 ≤ delta → df.length ≤ delta.toNat * qpd →
      get_today_questions df delta qpd = []) ∧
    (0 ≤ delta → delta.toNat * qpd < df.length →
      (get_today_questions df delta qpd).length =
        min qpd (df.length - delta.toNat * qpd) ∧
      ∀ i : Nat,
        (get_today_questions df delta qpd)[i]? =
          if i < qpd then
            (df[delta.toNat * qpd + i]?).map
              (fun r => (delta.toNat * qpd + i, r))
          else none) := by
  refine ⟨fun h => get_today_neg df delta qpd h,
    fun h0 h => get_today_exhausted df delta qpd h0 h,
    fun h0 hs => ⟨get_today_length df delta qpd h0 hs,
      fun i => get_today_getElem? df delta qpd h0 hs i⟩⟩

/-- Witness for C2 at a concrete store, offset and batch size. -/
theorem selectBatch_date_offset_slice_witness :
    ((-1 : Int) < 0 ∧ get_today_questions dfTwo (-1) 2 = []) ∧
    (get_today_questions dfTwo 1 1)[0]? = some (1, rA) := by
  refine ⟨⟨by decide, (selectBatch_date_offset_slice dfTwo (-1) 2).1 (by decide)⟩, ?_⟩
  have h := ((selectBatch_date_offset_slice dfTwo 1 1).2.2 (by decide) (by decide)).2 0
  rw [h]
  decide

end DSANotifier

namespace DSANotifier

/-- C1: when the send fails (`sendOk = false`), `save_questions` is never
called, every record's `Pushed` flag is unchanged, and an identical
subsequent run over the resulting store selects the same batch and
behaves identically. -/
theorem send_failure_leaves_state (df : List Record) (delta : Int) (qpd : Nat) :
    (job df delta qpd false).saved = none ∧
    storeAfter df (job df delta qpd false) = df ∧
    get_today_questions (storeAfter df (job df delta qpd false)) delta qpd =
      get_today_questions df delta qpd ∧
    job (storeAfter df (job df delta qpd false)) delta qpd false =
      job df delta qpd false := by
  have hnone : (job df delta qpd false).saved = none := by
    rcases job_saved_cases df delta qpd false with h | ⟨h, _⟩
    · exact h
    · cases h
  have hstore : storeAfter df (job df delta qpd false) = df := by
    rw [storeAfter, hnone]
    rfl
  exact ⟨hnone, hstore, by rw [hstore], by rw [hstore]⟩

/-- C8: when the CSV load fails (any `LoadError`) or yields no records,
`job` sends exactly the fixed error notification and performs no store
write; `runOnce` is a total function, so the run terminates normally
(the process does not exit). -/
theorem load_failure_sends_error (e : LoadError) (delta : Int) (qpd : Nat)
    (sendOk : Bool) :
    runOnce (Except.error e) delta qpd sendOk =
      { sent := [errorMessage], saved := none } ∧
    runOnce (Except.ok []) delta qpd sendOk =
      { sent := [errorMessage], saved := none } := by
  constructor <;> rfl

/-- C10: when the selected batch is non-empty but every record in it is
already pushed, `job` sends nothing at all and writes nothing; a message
is produced only when some batch record is not yet pushed. -/
theorem already_pushed_batch_silent (df : List Record) (delta : Int) (qpd : Nat)
    (sendOk : Bool) (h1 : df.isEmpty = false)
    (h2 : (get_today_questions df delta qpd).isEmpty = false) :
    ((get_today_questions df delta qpd).all (fun p => p.2.pushed) = true →
      job df delta qpd sendOk = { sent := [], saved := none }) ∧
    ((job df delta qpd sendOk).sent ≠ [] →
      ∃ p ∈ get_today_questions df delta qpd, p.2.pushed = false) := by
  constructor
  · intro hall
    simp [job, h1, h2, hall]
  · intro hsent
    by_cases hall : (get_today_questions df delta qpd).all (fun p => p.2.pushed) = true
    · exact absurd (by simp [job, h1, h2, hall] :
        (job df delta qpd sendOk).sent = []) hsent
    · have hall' : (get_today_questions df delta qpd).all (fun p => p.2.pushed) = false :=
        Bool.eq_false_iff.mpr hall
      obtain ⟨p, hp, hfalse⟩ := List.all_eq_false.mp hall'
      exact ⟨p, hp, Bool.eq_false_iff.mpr hfalse⟩

/-- Witness for C10 at a store whose single selected question is already
pushed: the run sends nothing and writes nothing. -/
theorem already_pushed_batch_silent_witness :
    dfPushed.isEmpty = false ∧
    job dfPushed 0 1 true = { sent := [], saved := none } := by
  refine ⟨by decide, ?_⟩
  exact (already_pushed_batch_silent dfPushed 0 1 true (by decide) (by decide)).1
    (by decide)

/-- Counterexample to C3 as stated: in a store whose every record is
delivered, the date-offset `get_today_questions` still returns a
non-empty batch (it never inspects the flag), and the run sends no
message at all — in particular not the completion message. -/
theorem all_delivered_claim_counterexample :
    (∀ r ∈ dfPushed, r.pushed = true) ∧
    ¬(get_today_questions dfPushed 0 1 = [] ∧
      (job dfPushed 0 1 true).sent = [completionMessage]) := by
  constructor
  · decide
  · decide

/-- C3 as amended: if every record is delivered, the run performs no
store write, and either the date-offset batch is empty and exactly the
fixed no-questions notice is sent, or the batch is non-empty and nothing
is sent; the completion message is never reached by `job`. -/
theorem all_delivered_no_write_no_message (df : List Record) (delta : Int)
    (qpd : Nat) (sendOk : Bool) (h1 : df.isEmpty = false)
    (h2 : ∀ r ∈ df, r.pushed = true) :
    (job df delta qpd sendOk).saved = none ∧
    ((get_today_questions df delta qpd = [] ∧
      (job df delta qpd sendOk).sent = [noQuestionsMessage]) ∨
     (get_today_questions df delta qpd ≠ [] ∧
      (job df delta qpd sendOk).sent = [])) := by
  have hall : (get_today_questions df delta qpd).all (fun p => p.2.pushed) = true := by
    rw [List.all_eq_true]
    intro p hp
    exact h2 p.2 (get_today_snd_mem df delta qpd hp)
  by_cases hb : get_today_questions df delta qpd = []
  · refine ⟨by simp [job, h1, hb], .inl ⟨hb, by simp [job, h1, hb]⟩⟩
  · have hbe : (get_today_questions df delta qpd).isEmpty = false := by
      cases hgt : get_today_questions df delta qpd with
      | nil => exact absurd hgt hb
      | cons a l => rfl
    refine ⟨by simp [job, h1, hbe, hall], .inr ⟨hb, by simp [job, h1, hbe, hall]⟩⟩

/-- Witness for the amended C3 at an all-delivered store with a
non-empty batch: no write and no message. -/
theorem all_delivered_no_write_no_message_witness :
    dfPushed.isEmpty = false ∧ (job dfPushed 0 1 true).saved = none ∧
    (job dfPushed 0 1 true).sent = [] := by
  have h := all_delivered_no_write_no_message dfPushed 0 1 true (by decide) (by decide)
  refine ⟨by decide, h.1, ?_⟩
  rcases h.2 with ⟨hemp, _⟩ | ⟨_, hsent⟩
  · exact absurd hemp (by decide)
  · exact hsent

/-- C4: over one run, a pushed record stays pushed, and a record can go
from not pushed to pushed only when the send succeeded and the record
belongs to the selected batch. -/
theorem pushed_flag_monotone (df : List Record) (delta : Int) (qpd : Nat)
    (sendOk : Bool) (i : Nat) :
    ((df[i]?).map Record.pushed = some true →
      ((storeAfter df (job df delta qpd sendOk))[i]?).map Record.pushed = some true) ∧
    (((storeAfter df (job df delta qpd sendOk))[i]?).map Record.pushed = some true →
      (df[i]?).map Record.pushed = some false →
      sendOk = true ∧ i ∈ (get_today_questions df delta qpd).map Prod.fst) := by
  rcases job_saved_cases df delta qpd sendOk with hnone | ⟨hok, hsome⟩
  · have hst : storeAfter df (job df delta qpd sendOk) = df := by
      rw [storeAfter, hnone]
      rfl
    rw [hst]
    exact ⟨fun h => h, fun h1 h2 => absurd (h1.symm.trans h2) (by simp)⟩
  · have hst : storeAfter df (job df delta qpd sendOk) =
        markPushed df ((get_today_questions df delta qpd).map Prod.fst) := by
      rw [storeAfter, hsome]
      rfl
    rw [hst, markPushed_getElem?]
    cases hdf : df[i]? with
    | none => exact ⟨fun h => by simp at h, fun h _ => by simp at h⟩
    | some r =>
      by_cases hmem : i ∈ (get_today_questions df delta qpd).map Prod.fst
      · exact ⟨fun _ => by simp [hmem], fun _ _ => ⟨hok, hmem⟩⟩
      · refine ⟨fun h => by simpa [hmem] using h, fun ha hb => ?_⟩
        simp [hmem] at ha
        simp at hb
        exact absurd ha (by simp [hb])

/-- Witness for C4: an already-pushed record remains pushed after a
successful run. -/
theorem pushed_flag_monotone_witness :
    (dfPushed[0]?).map Record.pushed = some true ∧
    ((storeAfter dfPushed (job dfPushed 0 1 true))[0]?).map Record.pushed =
      some true := by
  refine ⟨by decide, ?_⟩
  exact (pushed_flag_monotone dfPushed 0 1 true 0).1 (by decide)

/-- C5: when the run reaches the send and the send succeeds, the message
sent is exactly the formatted batch, the full sequence is written back,
records whose index is in the batch are written with `pushed := true`
and all other fields intact, and every other record is written back
unchanged. -/
theorem send_success_marks_exactly_batch (df : List Record) (delta : Int)
    (qpd : Nat) (h1 : df.isEmpty = false)
    (h2 : (get_today_questions df delta qpd).isEmpty = false)
    (h3 : (get_today_questions df delta qpd).all (fun p => p.2.pushed) = false) :
    (job df delta qpd true).sent =
      [format_questions (get_today_questions df delta qpd) delta qpd] ∧
    (job df delta qpd true).saved =
      some (markPushed df ((get_today_questions df delta qpd).map Prod.fst)) ∧
    (storeAfter df (job df delta qpd true)).length = df.length ∧
    ∀ i : Nat,
      (i ∈ (get_today_questions df delta qpd).map Prod.fst →
        (storeAfter df (job df delta qpd true))[i]? =
          (df[i]?).map (fun r => { r with pushed := true })) ∧
      (i ∉ (get_today_questions df delta qpd).map Prod.fst →
        (storeAfter df (job df delta qpd true))[i]? = df[i]?) := by
  have hjob : job df delta qpd true =
      { sent := [format_questions (get_today_questions df delta qpd) delta qpd],
        saved := some (markPushed df
          ((get_today_questions df delta qpd).map Prod.fst)) } := by
    simp [job, h1, h2, h3]
  have hst : storeAfter df (job df delta qpd true) =
      markPushed df ((get_today_questions df delta qpd).map Prod.fst) := by
    rw [storeAfter, hjob]
    rfl
  refine ⟨by rw [hjob], by rw [hjob], by rw [hst, markPushed_length],
    fun i => ⟨fun hmem => ?_, fun hmem => ?_⟩⟩
  · rw [hst, markPushed_getElem?]
    cases df[i]? <;> simp [hmem]
  · rw [hst, markPushed_getElem?]
    cases df[i]? <;> simp [hmem]

/-- Witness for C5 at a one-question undelivered store. -/
theorem send_success_marks_exactly_batch_witness :
    dfUnpushed.isEmpty = false ∧
    (job dfUnpushed 0 1 true).saved =
      some (markPushed dfUnpushed
        ((get_today_questions dfUnpushed 0 1).map Prod.fst)) := by
  refine ⟨by decide, ?_⟩
  exact (send_success_marks_exactly_batch dfUnpushed 0 1 (by decide) (by decide)
    (by decide)).2.1

/-- C6: `format_questions` returns the fixed completion literal on the
empty batch; on a non-empty batch the message is the header followed by
the concatenation of one entry per batch row — so the entry count
equals the batch size — and each entry contains the row's question,
topic and category texts. -/
theorem format_questions_entry_count (rows : List (Nat × Record)) (delta : Int)
    (qpd : Nat) :
    format_questions [] delta qpd = completionMessage ∧
    (rows.isEmpty = false →
      format_questions rows delta qpd =
        messageHeader ++ concatAll (rows.map (questionEntry delta qpd)) ∧
      (rows.map (questionEntry delta qpd)).length = rows.length ∧
      ∀ p ∈ rows,
        (∃ a b : String, questionEntry delta qpd p = a ++ (p.2.question ++ b)) ∧
        (∃ a b : String, questionEntry delta qpd p = a ++ (p.2.topic ++ b)) ∧
        (∃ a b : String, questionEntry delta qpd p = a ++ (p.2.category ++ b))) := by
  refine ⟨rfl, fun h => ⟨format_questions_eq_concat rows delta qpd h, by simp,
    fun p _ => ⟨?_, ?_, ?_⟩⟩⟩
  · exact ⟨"\n• *Question " ++ toString (question_number delta qpd p.1) ++ ":* ",
      "\n  _Topic:_ " ++ p.2.topic ++ " | _Category:_ " ++ p.2.category ++ "\n",
      by simp [questionEntry, String.append_assoc]⟩
  · exact ⟨"\n• *Question " ++ toString (question_number delta qpd p.1) ++ ":* " ++
      p.2.question ++ "\n  _Topic:_ ",
      " | _Category:_ " ++ p.2.category ++ "\n",
      by simp [questionEntry, String.append_assoc]⟩
  · exact ⟨"\n• *Question " ++ toString (question_number delta qpd p.1) ++ ":* " ++
      p.2.question ++ "\n  _Topic:_ " ++ p.2.topic ++ " | _Category:_ ",
      "\n",
      by simp [questionEntry, String.append_assoc]⟩

/-- Witness for C6 at a one-row batch. -/
theorem format_questions_entry_count_witness :
    ([((0 : Nat), rA)].isEmpty = false) ∧
    format_questions [(0, rA)] 0 1 =
      messageHeader ++ concatAll ([(0, rA)].map (questionEntry 0 1)) := by
  refine ⟨by decide, ?_⟩
  exact ((format_questions_entry_count [(0, rA)] 0 1).2 (by decide)).1

/-- C9: `format_questions` is deterministic in the fields it reads: two
batches that agree on row indices, question, topic and category texts
(the numbering parameters being equal) produce the same string — in
particular two calls on the same batch always agree, and the `Pushed`
flags have no influence on the output. -/
theorem format_questions_deterministic (rows₁ rows₂ : List (Nat × Record))
    (delta : Int) (qpd : Nat)
    (h : rows₁.map visibleFields = rows₂.map visibleFields) :
    format_questions rows₁ delta qpd = format_questions rows₂ delta qpd := by
  have hlen : rows₁.length = rows₂.length := by
    have := congrArg List.length h
    simpa using this
  have hfun : questionEntry delta qpd = entryOfFields delta qpd ∘ visibleFields :=
    funext fun p => questionEntry_eq_fields delta qpd p
  have hmap : rows₁.map (questionEntry delta qpd) =
      rows₂.map (questionEntry delta qpd) := by
    rw [hfun, ← List.map_map, ← List.map_map, h]
  by_cases hemp : rows₁.isEmpty = true
  · have hemp2 : rows₂.isEmpty = true := by
      cases rows₁ <;> cases rows₂ <;> simp_all
    rw [format_questions, format_questions, if_pos hemp, if_pos hemp2]
  · have hemp1 : rows₁.isEmpty = false := Bool.eq_false_iff.mpr hemp
    have hemp2 : rows₂.isEmpty = false := by
      cases rows₁ <;> cases rows₂ <;> simp_all
    rw [format_questions_eq_concat _ _ _ hemp1,
      format_questions_eq_concat _ _ _ hemp2, hmap]

/-- Witness for C9: flipping only the `Pushed` flag of the single batch
row leaves the rendered message unchanged. -/
theorem format_questions_deterministic_witness :
    ([((0 : Nat), rA)].map visibleFields = [((0 : Nat), rAPushed)].map visibleFields) ∧
    format_questions [(0, rA)] 0 1 = format_questions [(0, rAPushed)] 0 1 := by
  refine ⟨by decide, ?_⟩
  exact format_questions_deterministic [(0, rA)] [(0, rAPushed)] 0 1 (by decide)

end DSANotifier
